import Mathlib

/-
Verification of the teapot-lidar navigation pipeline.

The Python sources (navigator.py, absoluteNavigator.py, pcapReader.py,
serialPcapReader.py, sbetParser.py) are shallowly embedded below.
Floating-point numbers are modelled as rationals; external numeric
routines (numpy's sqrt, the pluggable NICP matcher, Open3D's voxel
downsampling, the wall clock) are modelled as parameters, gathered in
the `Externals` structure, since they live outside the repository.
-/

/-- A 3D point / vector, as stored in the numpy arrays of the source. -/
abbrev Vec3 : Type := ℚ × ℚ × ℚ

/-- A 4x4 homogeneous transformation matrix (`reg.transformation`). -/
abbrev Mat4 : Type := Fin 4 → Fin 4 → ℚ

/-- A point cloud frame: the list of its points
(`o3d.geometry.PointCloud.points`). -/
abbrev Frame : Type := List Vec3

/-- Componentwise addition of two 3-vectors (numpy `m + movement`). -/
def add3 (a b : Vec3) : Vec3 :=
  (a.1 + b.1, a.2.1 + b.2.1, a.2.2 + b.2.2)

/-- Dot product of a 3-vector with itself context (`np.dot(movement, movement)`). -/
def dot3 (a b : Vec3) : ℚ :=
  a.1 * b.1 + a.2.1 * b.2.1 + a.2.2 * b.2.2

/-- The origin point `[0, 0, 0]` used by `navigator.py` line 138 and 174. -/
def origin3 : Vec3 := (0, 0, 0)

/-- Open3D `Geometry3D.TransformPoints`: each point is extended with a
homogeneous coordinate 1, multiplied by the 4x4 matrix, and the first three
coordinates are divided by the fourth.  For the rigid transforms returned by
the registration algorithms the bottom row is `(0 0 0 1)`, so the divisor
is 1. -/
def transformPoint (T : Mat4) (p : Vec3) : Vec3 :=
  let w := T 3 0 * p.1 + T 3 1 * p.2.1 + T 3 2 * p.2.2 + T 3 3
  ((T 0 0 * p.1 + T 0 1 * p.2.1 + T 0 2 * p.2.2 + T 0 3) / w,
   (T 1 0 * p.1 + T 1 1 * p.2.1 + T 1 2 * p.2.2 + T 1 3) / w,
   (T 2 0 * p.1 + T 2 1 * p.2.1 + T 2 2 * p.2.2 + T 2 3) / w)

/-- `PointCloud.transform`: transform every point of a cloud. -/
def transformPoints (T : Mat4) (ps : Frame) : Frame :=
  ps.map (transformPoint T)

/-- Sum of a list of 3-vectors. -/
def vsum (ps : List Vec3) : Vec3 :=
  ps.foldl add3 (0, 0, 0)

/-- Open3D `get_center`: the mean of the points of a cloud (the origin for an
empty cloud). -/
def getCenter (ps : Frame) : Vec3 :=
  if ps.length = 0 then (0, 0, 0)
  else ((vsum ps).1 / (ps.length : ℚ),
        (vsum ps).2.1 / (ps.length : ℚ),
        (vsum ps).2.2 / (ps.length : ℚ))

/-- `navigator.py` line 138: the movement is obtained by building a one-point
cloud containing `[0,0,0]`, transforming it with `reg.transformation`, and
taking its center. -/
def movementRelative (T : Mat4) : Vec3 :=
  getCenter (transformPoints T [origin3])

/-- `absoluteNavigator.py` line 235: the movement is the translation column
`reg.transformation[:3,3]`. -/
def translationColumn (T : Mat4) : Vec3 :=
  (T 0 3, T 1 3, T 2 3)

/-- The registration result returned by the pluggable matcher
(`reg = self.matcher.match(...)`): a transformation plus quality metrics. -/
structure Reg where
  transformation : Mat4
  fitness : ℚ
  inlier_rmse : ℚ

/-- Per-step metric records (`plotter.Plotter`, external observer; only its
four append-only metric lists matter to the engine). -/
structure Plot where
  timeUsages : List ℚ
  rmses : List ℚ
  fitnesses : List ℚ
  distances : List ℚ

/-- External collaborators of the engine, modelled as parameters:
the pluggable alignment matcher, numpy's floating-point square root, the
elapsed wall-clock time of step `k`, and Open3D's `voxel_down_sample`. -/
structure Externals where
  matcher : Frame → Frame → Reg
  npsqrt : ℚ → ℚ
  timeOf : ℕ → ℚ
  voxelDown : ℚ → Frame → Frame

/-- The mutable state of `LidarNavigator` (navigator.py) that the fusion loop
touches.  `reader` holds the frames the pcap reader has not yet yielded;
`preparedCount` models `len(self.reader.preparedClouds)`, the number of
frames prepared so far by the reader. -/
structure NavState where
  reader : List Frame
  preparedCount : ℕ
  previousFrame : Frame
  mergedFrame : Frame
  movements : List Vec3
  pathPoints : List Vec3
  pathLines : List (ℕ × ℕ)
  plot : Plot

/-- `navigator.py` lines 166-168: re-express every previously recorded
movement by composing it with the new movement
(`self.movements[i] = m + movement`). -/
def reexpress (movements : List Vec3) (movement : Vec3) : List Vec3 :=
  movements.map (fun m => add3 m movement)

/-- The voxel size used for downsampling (`self.voxel_size = 0.1`). -/
def voxelSize : ℚ := 1 / 10

/-- View a 3-vector as a point of the Euclidean space ℝ³, so that distances
between trajectory positions are the genuine Euclidean distances. -/
def toE (p : Vec3) : EuclideanSpace ℝ (Fin 3) :=
  ![(p.1 : ℝ), (p.2.1 : ℝ), (p.2.2 : ℝ)]

/-- `LidarNavigator.mergeNextFrame` (navigator.py lines 143-208): fetch the
next frame (returning `False` at end of stream), align it against the
previous frame, record the step metrics, re-express and append the
movements, extend the movement path, merge and downsample the model. -/
def mergeNextFrame (E : Externals) (s : NavState) : Bool × NavState :=
  match s.reader with
  | [] => (false, s)
  | frame :: rest =>
    let reg := E.matcher s.previousFrame frame
    let movement := getCenter (transformPoints reg.transformation [origin3])
    let plot : Plot :=
      { timeUsages := s.plot.timeUsages ++ [E.timeOf s.plot.timeUsages.length]
        rmses := s.plot.rmses ++ [reg.inlier_rmse]
        fitnesses := s.plot.fitnesses ++ [reg.fitness]
        distances := s.plot.distances ++ [E.npsqrt (dot3 movement movement)] }
    let movements := reexpress s.movements movement ++ [movement]
    let pathPoints := transformPoints reg.transformation (s.pathPoints ++ [origin3])
    let pathLines :=
      if 2 ≤ movements.length then
        s.pathLines ++ [(movements.length - 2, movements.length - 1)]
      else s.pathLines
    let merged :=
      E.voxelDown voxelSize (transformPoints reg.transformation s.mergedFrame ++ frame)
    (true,
     { reader := rest
       preparedCount := s.preparedCount + 1
       previousFrame := frame
       mergedFrame := merged
       movements := movements
       pathPoints := pathPoints
       pathLines := pathLines
       plot := plot })

/-- The `while self.mergeNextFrame(plot)` loop of `navigateThroughFile`
(navigator.py lines 70-79), including the frame-limit break.  The fuel
argument only bounds the recursion; `navigateThroughFile` supplies enough
fuel to drain the whole reader. -/
def navLoop (E : Externals) (frameLimit : ℤ) : ℕ → NavState → NavState
  | 0, s => s
  | Nat.succ fuel, s =>
    match mergeNextFrame E s with
    | (false, s1) => s1
    | (true, s1) =>
      if 1 < frameLimit ∧ frameLimit ≤ (s1.preparedCount : ℤ) then s1
      else navLoop E frameLimit fuel s1

/-- `LidarNavigator.navigateThroughFile` (navigator.py lines 33-95), reduced
to its fusion-loop state: the movement list and path start empty, the merged
and previous frames are seeded with frame 0 of the reader (`readFrame(0)`,
which reads by index and does not advance the sequential frame stream), and
the loop runs until `mergeNextFrame` returns `False` (or the frame limit
breaks it). -/
def navigateThroughFile (E : Externals) (frameLimit : ℤ) (frames : List Frame) : NavState :=
  let first := frames.headI
  navLoop E frameLimit (frames.length + 1)
    { reader := frames
      preparedCount := 0
      previousFrame := first
      mergedFrame := first
      movements := []
      pathPoints := []
      pathLines := []
      plot := ⟨[], [], [], []⟩ }

/-- numpy boolean indexing `cloud[mask]`: keep the entries of `cloud` whose
corresponding mask entry is true. -/
def maskFilter {α : Type} (mask : List Bool) (cloud : List α) : List α :=
  (mask.zip cloud).filterMap (fun bc => if bc.1 then some bc.2 else none)

/-- `PcapReader.remove_vehicle` (pcapReader.py lines 78-87): the row mask
computed from the point array, selecting the points outside the stationary
vehicle box (`vw = 0.7`, `vl = 2.2`). -/
def vehicleMask (frame : List Vec3) : List Bool :=
  frame.map (fun p =>
    decide ((p.1 > 1 / 5 ∨ p.1 < -(11 / 5)) ∨
            (p.2.1 > 7 / 10 ∨ p.2.1 < -(7 / 10)) ∨
            (p.2.2 > 3 / 10 ∨ p.2.2 < -2)))

/-- `PcapReader.remove_vehicle`: apply the vehicle mask of `frame` to
`cloud` (when called with one argument the source sets `cloud = frame`). -/
def PcapReader.remove_vehicle {α : Type} (frame : List Vec3) (cloud : List α) :
    List α :=
  maskFilter (vehicleMask frame) cloud

/-- `PcapReader.remove_invalid` (pcapReader.py lines 89-96): the row mask
keeping the points with no zero coordinate. -/
def invalidMask (frame : List Vec3) : List Bool :=
  frame.map (fun p => decide (p.1 ≠ 0 ∧ p.2.1 ≠ 0 ∧ p.2.2 ≠ 0))

/-- `PcapReader.remove_invalid`: apply the invalid-point mask of `frame` to
`cloud`. -/
def PcapReader.remove_invalid {α : Type} (frame : List Vec3) (cloud : List α) :
    List α :=
  maskFilter (invalidMask frame) cloud

/-- `PcapReader.remove_outside_distance` (pcapReader.py lines 98-105): the
row mask keeping the points whose distance from the sensor
(`np.sqrt(x**2 + y**2 + z**2)`, computed with the external floating-point
square root) is at most `meters`. -/
def distanceMask (npsqrt : ℚ → ℚ) (meters : ℚ) (frame : List Vec3) : List Bool :=
  frame.map (fun p => decide (npsqrt (p.1 ^ 2 + p.2.1 ^ 2 + p.2.2 ^ 2) ≤ meters))

/-- `PcapReader.remove_outside_distance`: apply the max-distance mask of
`frame` to `cloud`. -/
def PcapReader.remove_outside_distance {α : Type} (npsqrt : ℚ → ℚ) (meters : ℚ)
    (frame : List Vec3) (cloud : List α) : List α :=
  maskFilter (distanceMask npsqrt meters frame) cloud

/-- The cloud returned by `PcapReader.next_frame`: the point array together
with the color array. -/
structure ColoredCloud where
  points : List Vec3
  colors : List Vec3

/-- `PcapReader.next_frame` (pcapReader.py lines 107-153), starting from the
decoded point array `xyz` and the colorized array `color_img` (both reshaped
row-aligned from the same scan by the external sensor SDK): apply the
vehicle-removal or the invalid-point filter, then the optional max-distance
filter; each mask is computed once from the current point array and applied
first to the color array, then to the point array itself. -/
def PcapReader.next_frame (npsqrt : ℚ → ℚ) (max_distance : Option ℚ)
    (removeVehicle : Bool) (xyz : List Vec3) (color_img : List Vec3) :
    ColoredCloud :=
  let color1 := if removeVehicle then PcapReader.remove_vehicle xyz color_img
                else PcapReader.remove_invalid xyz color_img
  let xyz1 := if removeVehicle then PcapReader.remove_vehicle xyz xyz
              else PcapReader.remove_invalid xyz xyz
  match max_distance with
  | none => { points := xyz1, colors := color1 }
  | some m =>
    { points := PcapReader.remove_outside_distance npsqrt m xyz1 xyz1
      colors := PcapReader.remove_outside_distance npsqrt m xyz1 color1 }

/-- A concrete rigid transform: translation by `(5, 6, 7)`. -/
def demoT : Mat4 :=
  ![![1, 0, 0, 5], ![0, 1, 0, 6], ![0, 0, 1, 7], ![0, 0, 0, 1]]

/-- A concrete instantiation of the external collaborators, used by the
witnesses: the matcher always reports a zero-fitness identity-like result
whose transformation is `demoT`. -/
def demoExt : Externals :=
  { matcher := fun _ _ => { transformation := demoT, fitness := 0, inlier_rmse := 0 }
    npsqrt := fun _ => 0
    timeOf := fun _ => 0
    voxelDown := fun _ f => f }

/-- Two concrete frames for the witnesses. -/
def demoFrames : List Frame :=
  [[(0, 0, 0)], [(1, 1, 1), (2, 0, 0)]]

/-- A concrete relative-navigator state whose reader still holds one frame,
which is empty after filtering. -/
def demoNavState : NavState :=
  { reader := [[]]
    preparedCount := 0
    previousFrame := [(0, 0, 0)]
    mergedFrame := [(0, 0, 0)]
    movements := []
    pathPoints := []
    pathLines := []
    plot := ⟨[], [], [], []⟩ }

/-- One position record of the independent SBET positioning source
(sbetParser.py lines 9-59); only the fields read or written by the modelled
operations are included. -/
structure SbetRow where
  x : ℚ
  y : ℚ
  alt : ℚ
  heading : ℚ
deriving DecidableEq

/-- `SbetRow.translate` (sbetParser.py lines 53-56): subtract the components
of the translation vector from the easting, the northing and the
altitude. -/
def SbetRow.translate (r : SbetRow) (t : Vec3) : SbetRow :=
  { r with x := r.x - t.1, y := r.y - t.2.1, alt := r.alt - t.2.2 }

/-- `AbsoluteLidarNavigator.navigate_through_file` lines 86-92: every
coordinate of the positioning source is translated by the
full-point-cloud offset and then additionally by the vector `[0, 0, 40]`. -/
def prepareActualCoordinates (offset : Vec3) (coords : List SbetRow) :
    List SbetRow :=
  coords.map (fun c => (c.translate offset).translate (0, 0, 40))

/-- Componentwise minimum of two 3-vectors. -/
def vmin3 (a b : Vec3) : Vec3 :=
  (min a.1 b.1, min a.2.1 b.2.1, min a.2.2 b.2.2)

/-- Componentwise maximum of two 3-vectors. -/
def vmax3 (a b : Vec3) : Vec3 :=
  (max a.1 b.1, max a.2.1 b.2.1, max a.2.2 b.2.2)

/-- numpy `np.amin(points, axis=0)` (it raises on an empty array; the
embedding returns the origin there, and the theorems assume a non-empty
cloud). -/
def amin3 : List Vec3 → Vec3
  | [] => (0, 0, 0)
  | p :: rest => rest.foldl vmin3 p

/-- numpy `np.amax(points, axis=0)`. -/
def amax3 : List Vec3 → Vec3
  | [] => (0, 0, 0)
  | p :: rest => rest.foldl vmax3 p

/-- Componentwise subtraction (numpy `points -= offset`). -/
def vsub3 (a b : Vec3) : Vec3 :=
  (a.1 - b.1, a.2.1 - b.2.1, a.2.2 - b.2.2)

/-- absoluteNavigator.py lines 39-40: the offset is the middle of the
bounding box, `amin + (amax - amin) / 2`. -/
def boundingMid (points : List Vec3) : Vec3 :=
  let mn := amin3 points
  let mx := amax3 points
  (mn.1 + (mx.1 - mn.1) / 2,
   mn.2.1 + (mx.2.1 - mn.2.1) / 2,
   mn.2.2 + (mx.2.2 - mn.2.2) / 2)

/-- The in-memory reference-cloud state built by
`AbsoluteLidarNavigator.load_point_cloud`. -/
structure RefCloudState where
  full_point_cloud_offset : Vec3
  full_cloud : List Vec3

/-- The raw branch of `load_point_cloud` (absoluteNavigator.py lines 32-48):
compute the bounding-box-middle offset and move every point by subtracting
it (normal estimation and the uniform paint do not change the points). -/
def load_point_cloud_raw (points : List Vec3) : RefCloudState :=
  let offset := boundingMid points
  { full_point_cloud_offset := offset
    full_cloud := points.map (fun p => vsub3 p offset) }

/-- The `.cloud` sidecar descriptor (absoluteNavigator.py lines 50-53): the
stored offset vector together with the contents of the pre-processed
(already moved) cloud file it references. -/
structure SidecarData where
  offset : Vec3
  cloud : List Vec3

/-- Writing the sidecar and the pre-processed cloud file after a raw load
(absoluteNavigator.py lines 51-53): the offset written is
`full_point_cloud_offset.tolist()` and the cloud file written holds
`self.full_cloud`. -/
def writeSidecar (st : RefCloudState) : SidecarData :=
  { offset := st.full_point_cloud_offset, cloud := st.full_cloud }

/-- The `.cloud` branch of `load_point_cloud` (absoluteNavigator.py lines
23-31): read the offset from the descriptor and the cloud from the
referenced file. -/
def load_point_cloud_sidecar (d : SidecarData) : RefCloudState :=
  { full_point_cloud_offset := d.offset, full_cloud := d.cloud }

/-- The mutable state of `AbsoluteLidarNavigator` touched by its fusion
loop. -/
structure AbsState where
  reader : List Frame
  full_cloud : List Vec3
  full_point_cloud_offset : Vec3
  merged_frame : List Vec3
  merged_frame_is_dirty : Bool
  downsample_timer : ℤ
  downsample_cloud_after_frames : ℤ
  movements : List Vec3
  plot : Plot

/-- The error raised by the leftover debugging line on absoluteNavigator.py
line 215, which evaluates an undefined name. -/
def nameErrorMsg : String := "NameError: name afdsajhuiCRASH is not defined"

/-- Modelled from the spec: `NavigatorBase.ensure_merged_frame_is_downsampled`
is defined in `navigatorBase.py`, which is not among the provided sources.
Per spec section 4.4 the engine must compact the model at least once before
handing it to the observers, so the function downsamples the merged cloud
when it has grown since the last compaction and clears the dirty flag. -/
def ensure_merged_frame_is_downsampled (E : Externals) (s : AbsState) : AbsState :=
  if s.merged_frame_is_dirty then
    { s with
      merged_frame := E.voxelDown voxelSize s.merged_frame
      merged_frame_is_dirty := false }
  else s

/-- `AbsoluteLidarNavigator.merge_next_frame` (absoluteNavigator.py lines
201-297).  Line 207 fetches the next frame; lines 209-215 are a leftover
"temporary debugging visualization" whose last line evaluates the undefined
name `afdsajhuiCRASH`, so Python raises a `NameError` on every call — before
the end-of-stream check on line 219 and the rest of the merge step can
run.  The embedding therefore returns that error unconditionally. -/
def AbsoluteLidarNavigator.merge_next_frame (_E : Externals) (_s : AbsState) :
    Except String (Bool × AbsState) :=
  Except.error nameErrorMsg

/-- The `for i in tqdm(range(0, self.frame_limit))` loop of
`navigate_through_file` (absoluteNavigator.py lines 108-151): each of the
`frame_limit` iterations calls `merge_next_frame` (a `False` result skips
the visualization refresh but does not end the loop); only
`KeyboardInterrupt` is caught, so any other exception propagates. -/
def navigate_through_file_loop (E : Externals) :
    ℕ → AbsState → Except String AbsState
  | 0, s => Except.ok s
  | Nat.succ n, s =>
    match AbsoluteLidarNavigator.merge_next_frame E s with
    | Except.error e => Except.error e
    | Except.ok (_, s1) => navigate_through_file_loop E n s1

/-- `AbsoluteLidarNavigator.navigate_through_file` (absoluteNavigator.py
lines 59-192), reduced to its loop and the final-compaction step: after the
loop, lines 153-154 ensure the merged cloud has been downsampled before the
results are summarized, saved and shown. -/
def AbsoluteLidarNavigator.navigate_through_file (E : Externals)
    (frame_limit : ℕ) (s : AbsState) : Except String AbsState :=
  match navigate_through_file_loop E frame_limit s with
  | Except.error e => Except.error e
  | Except.ok s1 => Except.ok (ensure_merged_frame_is_downsampled E s1)

/-- The state of `SerialPcapReader` (serialPcapReader.py lines 6-12): the
underlying readers, each modelled by the frames it has not yet yielded, and
the mutable current-reader index. -/
structure SerialState where
  readers : List (List Frame)
  current_reader_index : ℕ
deriving DecidableEq

/-- The recursion of `SerialPcapReader.next_frame` (serialPcapReader.py
lines 74-84): when the current index is past the last reader return `None`;
otherwise ask the current reader for its next frame; if that reader is
exhausted, advance the index (`_next_reader`, lines 23-25) and retry.  The
fuel argument mirrors the termination measure of the Python recursion (the
index strictly increases towards the number of readers);
`SerialPcapReader.next_frame` supplies exactly that measure. -/
def serialNextGo : ℕ → SerialState → Option Frame × SerialState
  | 0, s => (none, s)
  | Nat.succ fuel, s =>
    if s.readers.length ≤ s.current_reader_index then (none, s)
    else
      match s.readers.getD s.current_reader_index [] with
      | [] =>
        serialNextGo fuel
          { s with current_reader_index := s.current_reader_index + 1 }
      | f :: rest =>
        (some f, { s with readers := s.readers.set s.current_reader_index rest })

/-- `SerialPcapReader.next_frame` (serialPcapReader.py lines 74-84). -/
def SerialPcapReader.next_frame (s : SerialState) : Option Frame × SerialState :=
  serialNextGo (s.readers.length - s.current_reader_index) s

/-- The serial-reader invariant: every reader before the current index is
already exhausted.  It holds initially (index 0) and `next_frame` only
advances the index past exhausted readers. -/
def exhaustedBefore (s : SerialState) : Prop :=
  ∀ k, k < s.current_reader_index → s.readers.getD k [] = []

/-- A concrete SBET row for the C6 counterexample and witnesses. -/
def demoRow : SbetRow := { x := 100, y := 200, alt := 50, heading := 0 }

/-- A concrete serial-reader state: the first and last readers are
exhausted, the middle one still holds one frame. -/
def demoSerial : SerialState :=
  { readers := [[], [[(1, 0, 0)]], []], current_reader_index := 0 }

/-- C4: for every transform whose bottom-right entry is 1 (true of every
rigid transform, whose bottom row is `(0 0 0 1)`), the movement computed by
transforming the origin point and taking the center (`navigator.py` 135-141)
equals the translation column `T[:3,3]` (`absoluteNavigator.py` 234-235). -/
theorem movement_formulations_agree (T : Mat4) (h : T 3 3 = 1) :
    movementRelative T = translationColumn T := by
  simp [movementRelative, translationColumn, transformPoints, transformPoint,
    getCenter, vsum, add3, origin3, h]

/-- Witness for C4 at the concrete translation `demoT`. -/
theorem movement_formulations_agree_witness :
    demoT 3 3 = 1 ∧ movementRelative demoT = translationColumn demoT :=
  ⟨by decide, movement_formulations_agree demoT (by decide)⟩

/-- A successful merge step consumes the head of the reader and extends the
movement list, the path points, the metric lists by one entry each, and the
path lines by one entry exactly when at least two movements exist. -/
theorem mergeNextFrame_cons (E : Externals) (s : NavState) (f : Frame)
    (rest : List Frame) (h : s.reader = f :: rest) :
    (mergeNextFrame E s).1 = true ∧
    (mergeNextFrame E s).2.reader = rest ∧
    (mergeNextFrame E s).2.preparedCount = s.preparedCount + 1 ∧
    (mergeNextFrame E s).2.movements.length = s.movements.length + 1 ∧
    (mergeNextFrame E s).2.pathPoints.length = s.pathPoints.length + 1 ∧
    (mergeNextFrame E s).2.pathLines.length =
      (if 1 ≤ s.movements.length then s.pathLines.length + 1
       else s.pathLines.length) := by
  obtain ⟨rd, pc, pf, mf, mv, pp, pl, pt⟩ := s
  simp only at h
  subst h
  simp only [mergeNextFrame, reexpress, transformPoints]
  refine ⟨trivial, trivial, trivial, by simp, by simp, ?_⟩
  simp only [List.length_append, List.length_map, List.length_cons, List.length_nil]
  by_cases h1 : 1 ≤ mv.length
  · rw [if_pos (by omega : 2 ≤ mv.length + (0 + 1)), if_pos h1, List.length_append]
    simp
  · rw [if_neg (by omega), if_neg h1]

/-- At end of stream the merge step returns `False` and leaves the state
unchanged. -/
theorem mergeNextFrame_nil (E : Externals) (s : NavState) (h : s.reader = []) :
    mergeNextFrame E s = (false, s) := by
  simp [mergeNextFrame, h]

/-- Loop invariant for C1: with a frame limit that never breaks the loop
(`frameLimit ≤ 1`, as with the default `-1`) and enough fuel, the loop
consumes the whole reader, adds one path position per frame, and preserves
the invariant that the line count is the position count minus one. -/
theorem navLoop_spec (E : Externals) (frameLimit : ℤ) (hfl : frameLimit ≤ 1) :
    ∀ (fuel : ℕ) (s : NavState), s.reader.length ≤ fuel →
      s.movements.length = s.pathPoints.length →
      s.pathLines.length = s.pathPoints.length - 1 →
      (navLoop E frameLimit fuel s).pathPoints.length
          = s.pathPoints.length + s.reader.length ∧
      (navLoop E frameLimit fuel s).movements.length
          = (navLoop E frameLimit fuel s).pathPoints.length ∧
      (navLoop E frameLimit fuel s).pathLines.length
          = (navLoop E frameLimit fuel s).pathPoints.length - 1 := by
  intro fuel
  induction fuel with
  | zero =>
    intro s hle hmv hln
    have hr : s.reader = [] := List.length_eq_zero.mp (Nat.le_zero.mp hle)
    simp [navLoop, hr, hmv, hln]
  | succ fuel ih =>
    intro s hle hmv hln
    cases hr : s.reader with
    | nil =>
      simp only [navLoop, mergeNextFrame_nil E s hr]
      simp [hr, hmv, hln]
    | cons f rest =>
      obtain ⟨hT, hrd, hpc, hm1, hp1, hl1⟩ := mergeNextFrame_cons E s f rest hr
      rcases hMF : mergeNextFrame E s with ⟨b, s1⟩
      rw [hMF] at hT hrd hpc hm1 hp1 hl1
      simp only at hT hrd hpc hm1 hp1 hl1
      subst hT
      simp only [navLoop, hMF]
      have hbreak : ¬ (1 < frameLimit ∧ frameLimit ≤ (s1.preparedCount : ℤ)) := by
        intro hc
        omega
      rw [if_neg hbreak]
      have hm1' : s1.movements.length = s1.pathPoints.length := by
        rw [hm1, hp1, hmv]
      have hl1' : s1.pathLines.length = s1.pathPoints.length - 1 := by
        rw [hl1, hp1]
        by_cases h1 : 1 ≤ s.movements.length
        · rw [if_pos h1, hln]
          omega
        · rw [if_neg h1, hln]
          omega
      have hlen : s1.reader.length ≤ fuel := by
        have h2 : (f :: rest).length ≤ fuel + 1 := hr ▸ hle
        rw [List.length_cons] at h2
        rw [hrd]
        omega
      obtain ⟨ha, hb, hc⟩ := ih s1 hlen hm1' hl1'
      refine ⟨?_, hb, hc⟩
      rw [ha, hp1, hrd, List.length_cons]
      omega

/-- C1: a full run of the fusion loop (default frame limit, so the limit
break never fires) over a frame source yielding `N ≥ 1` frames produces a
trajectory with exactly `N` positions and `N - 1` connecting line segments
(navigator.py lines 41-54 and 143-208). -/
theorem trajectory_counts_full_run (E : Externals) (frameLimit : ℤ) (frames : List Frame)
    (hfl : frameLimit ≤ 1) (hN : 1 ≤ frames.length) :
    (navigateThroughFile E frameLimit frames).pathPoints.length = frames.length ∧
    (navigateThroughFile E frameLimit frames).pathLines.length = frames.length - 1 := by
  obtain ⟨ha, hb, hc⟩ := navLoop_spec E frameLimit hfl (frames.length + 1)
    { reader := frames
      preparedCount := 0
      previousFrame := frames.headI
      mergedFrame := frames.headI
      movements := []
      pathPoints := []
      pathLines := []
      plot := ⟨[], [], [], []⟩ }
    (by simp) (by simp) (by simp)
  simp only at ha
  constructor
  · rw [navigateThroughFile, ha]
    simp
  · rw [navigateThroughFile, hc, ha]
    simp

/-- Witness for C1: the full run over the two concrete `demoFrames` yields 2
positions and 1 segment. -/
theorem trajectory_counts_full_run_witness :
    ((-1 : ℤ) ≤ 1 ∧ 1 ≤ demoFrames.length) ∧
    ((navigateThroughFile demoExt (-1) demoFrames).pathPoints.length
        = demoFrames.length ∧
     (navigateThroughFile demoExt (-1) demoFrames).pathLines.length
        = demoFrames.length - 1) :=
  ⟨⟨by decide, by decide⟩,
   trajectory_counts_full_run demoExt (-1) demoFrames (by decide) (by decide)⟩

/-- C5: every processed frame — whatever the frame's content (in particular a
frame that is empty after filtering) and whatever the matcher reports (in
particular fitness 0) — yields a non-fatal step: the four metric lists each
gain exactly one record and exactly one movement and one trajectory position
are appended (navigator.py lines 157-171). -/
theorem step_records_metrics_and_movement (E : Externals) (s : NavState) (f : Frame)
    (rest : List Frame) (h : s.reader = f :: rest) :
    (mergeNextFrame E s).1 = true ∧
    (mergeNextFrame E s).2.movements.length = s.movements.length + 1 ∧
    (mergeNextFrame E s).2.pathPoints.length = s.pathPoints.length + 1 ∧
    (mergeNextFrame E s).2.plot.timeUsages.length = s.plot.timeUsages.length + 1 ∧
    (mergeNextFrame E s).2.plot.rmses.length = s.plot.rmses.length + 1 ∧
    (mergeNextFrame E s).2.plot.fitnesses.length = s.plot.fitnesses.length + 1 ∧
    (mergeNextFrame E s).2.plot.distances.length = s.plot.distances.length + 1 := by
  simp [mergeNextFrame, h, reexpress, transformPoints]

/-- Witness for C5: a concrete state whose next frame is empty after
filtering, processed with a zero-fitness matcher result. -/
theorem step_records_metrics_and_movement_witness :
    (mergeNextFrame demoExt demoNavState).1 = true ∧
    (mergeNextFrame demoExt demoNavState).2.movements.length
        = demoNavState.movements.length + 1 ∧
    (mergeNextFrame demoExt demoNavState).2.pathPoints.length
        = demoNavState.pathPoints.length + 1 ∧
    (mergeNextFrame demoExt demoNavState).2.plot.timeUsages.length
        = demoNavState.plot.timeUsages.length + 1 ∧
    (mergeNextFrame demoExt demoNavState).2.plot.rmses.length
        = demoNavState.plot.rmses.length + 1 ∧
    (mergeNextFrame demoExt demoNavState).2.plot.fitnesses.length
        = demoNavState.plot.fitnesses.length + 1 ∧
    (mergeNextFrame demoExt demoNavState).2.plot.distances.length
        = demoNavState.plot.distances.length + 1 :=
  step_records_metrics_and_movement demoExt demoNavState [] [] rfl

/-- `toE` turns componentwise rational addition into addition in ℝ³. -/
theorem toE_add3 (a v : Vec3) : toE (add3 a v) = toE a + toE v := by
  funext k
  fin_cases k <;> simp [toE, add3]

/-- Translating two points by the same vector preserves their Euclidean
distance. -/
theorem dist_toE_add3 (a b v : Vec3) :
    dist (toE (add3 a v)) (toE (add3 b v)) = dist (toE a) (toE b) := by
  rw [dist_eq_norm, dist_eq_norm, toE_add3, toE_add3, add_sub_add_right_eq_sub]

/-- Reading an entry of the re-expressed list below its length gives the
original entry translated by the new movement. -/
theorem reexpress_getD (ms : List Vec3) (v : Vec3) (k : ℕ) (hk : k < ms.length) :
    (reexpress ms v).getD k origin3 = add3 (ms.getD k origin3) v := by
  cases hma : ms.get? k with
  | none =>
    exact absurd (List.get?_eq_none.mp hma) (by omega)
  | some a =>
    rw [List.getD_eq_get?, List.getD_eq_get?, reexpress, List.get?_map, hma]
    rfl

/-- C3: the per-step re-expression of all previously recorded trajectory
positions (navigator.py lines 166-171, each prior movement composed with the
new movement) preserves every pairwise Euclidean distance between the
previously recorded positions. -/
theorem reexpress_preserves_dist (ms : List Vec3) (v : Vec3) (i j : ℕ)
    (hi : i < ms.length) (hj : j < ms.length) :
    dist (toE ((reexpress ms v).getD i origin3))
         (toE ((reexpress ms v).getD j origin3))
      = dist (toE (ms.getD i origin3)) (toE (ms.getD j origin3)) := by
  rw [reexpress_getD ms v i hi, reexpress_getD ms v j hj, dist_toE_add3]

/-- Witness for C3: two concrete recorded positions re-expressed by a
concrete new movement. -/
theorem reexpress_preserves_dist_witness :
    dist (toE ((reexpress [(0, 0, 0), (3, 4, 0)] (1, 2, 3)).getD 0 origin3))
         (toE ((reexpress [(0, 0, 0), (3, 4, 0)] (1, 2, 3)).getD 1 origin3))
      = dist (toE (([(0, 0, 0), (3, 4, 0)] : List Vec3).getD 0 origin3))
             (toE (([(0, 0, 0), (3, 4, 0)] : List Vec3).getD 1 origin3)) :=
  reexpress_preserves_dist [(0, 0, 0), (3, 4, 0)] (1, 2, 3) 0 1
    (by decide) (by decide)

/-- Applying the same mask to two lists of the same length yields results of
the same length. -/
theorem maskFilter_length_congr {α β : Type} (mask : List Bool) :
    ∀ (c1 : List α) (c2 : List β), c1.length = c2.length →
      (maskFilter mask c1).length = (maskFilter mask c2).length := by
  induction mask with
  | nil =>
    intro c1 c2 _
    simp [maskFilter]
  | cons b mask ih =>
    intro c1 c2 h
    cases c1 with
    | nil =>
      cases c2 with
      | nil => simp [maskFilter]
      | cons x c2 => simp at h
    | cons a c1 =>
      cases c2 with
      | nil => simp at h
      | cons x c2 =>
        have h2 : c1.length = c2.length := by simpa using h
        have h3 := ih c1 c2 h2
        cases b <;>
          simp only [maskFilter, List.zip_cons_cons, List.filterMap_cons,
            if_true, if_false, List.length_cons] at h3 ⊢ <;>
          simp [h3]

/-- C9: every cloud produced by `PcapReader.next_frame` satisfies the
alignment invariant — its color array has the same length as its point
array, because the invalid-point, vehicle-removal and max-distance filters
each apply one identical row mask to the point array and the color array
(pcapReader.py lines 107-153). -/
theorem next_frame_colors_aligned (npsqrt : ℚ → ℚ) (max_distance : Option ℚ)
    (rv : Bool) (xyz color_img : List Vec3)
    (h : xyz.length = color_img.length) :
    (PcapReader.next_frame npsqrt max_distance rv xyz color_img).points.length
      = (PcapReader.next_frame npsqrt max_distance rv xyz color_img).colors.length := by
  have stage1 :
      (if rv then PcapReader.remove_vehicle xyz xyz
       else PcapReader.remove_invalid xyz xyz).length =
      (if rv then PcapReader.remove_vehicle xyz color_img
       else PcapReader.remove_invalid xyz color_img).length := by
    cases rv
    · exact maskFilter_length_congr (invalidMask xyz) xyz color_img h
    · exact maskFilter_length_congr (vehicleMask xyz) xyz color_img h
  cases max_distance with
  | none => simpa only [PcapReader.next_frame] using stage1
  | some m =>
    simp only [PcapReader.next_frame]
    exact maskFilter_length_congr _ _ _ stage1

/-- Witness for C9: a concrete scan with three rows, filtered with vehicle
removal and a 5-meter distance limit (with a concrete stand-in for the
floating-point square root). -/
theorem next_frame_colors_aligned_witness :
    ([(0, 0, 0), (1, 0, 0), (9, 9, 9)] : List Vec3).length
      = ([(1, 1, 1), (2, 2, 2), (3, 3, 3)] : List Vec3).length ∧
    (PcapReader.next_frame (fun q => q) (some 5) true
        [(0, 0, 0), (1, 0, 0), (9, 9, 9)]
        [(1, 1, 1), (2, 2, 2), (3, 3, 3)]).points.length
      = (PcapReader.next_frame (fun q => q) (some 5) true
        [(0, 0, 0), (1, 0, 0), (9, 9, 9)]
        [(1, 1, 1), (2, 2, 2), (3, 3, 3)]).colors.length :=
  ⟨by decide,
   next_frame_colors_aligned (fun q => q) (some 5) true
     [(0, 0, 0), (1, 0, 0), (9, 9, 9)]
     [(1, 1, 1), (2, 2, 2), (3, 3, 3)] (by decide)⟩

/-- C2 fails on the code in absolute mode: at end of stream the relative
merge step does return `False` with the state unchanged and the loop exits
normally, but `AbsoluteLidarNavigator.merge_next_frame` raises a `NameError`
on every call (in particular at end of stream) because of the leftover
debugging line `afdsajhuiCRASH` on absoluteNavigator.py line 215, which runs
before the end-of-stream check. -/
theorem end_of_stream_merge_behavior (E : Externals) (s0 : NavState)
    (t : AbsState) :
    mergeNextFrame E { s0 with reader := [] } = (false, { s0 with reader := [] }) ∧
    AbsoluteLidarNavigator.merge_next_frame E t = Except.error nameErrorMsg :=
  ⟨mergeNextFrame_nil E _ rfl, rfl⟩

/-- C6 fails on the code: with a zero centering offset, the prepared
coordinate of a concrete row differs from the row translated by the offset
alone, because absoluteNavigator.py line 92 additionally translates every
coordinate by `[0, 0, 40]`. -/
theorem actual_coords_translation_counterexample :
    prepareActualCoordinates (0, 0, 0) [demoRow]
      ≠ [demoRow.translate (0, 0, 0)] := by
  norm_num [prepareActualCoordinates, SbetRow.translate, demoRow, SbetRow.mk.injEq]

/-- C6 amended: every position of the independent positioning source is
translated by the offset used to center the reference cloud and additionally
by the constant vector `(0, 0, 40)` — easting and northing are shifted by
exactly the offset, the altitude by the offset plus an extra 40
(absoluteNavigator.py lines 86-92, sbetParser.py lines 53-56). -/
theorem actual_coords_translation_amended (offset : Vec3)
    (coords : List SbetRow) (i : ℕ) (hi : i < coords.length) :
    ((prepareActualCoordinates offset coords).getD i demoRow).x
        = (coords.getD i demoRow).x - offset.1 ∧
    ((prepareActualCoordinates offset coords).getD i demoRow).y
        = (coords.getD i demoRow).y - offset.2.1 ∧
    ((prepareActualCoordinates offset coords).getD i demoRow).alt
        = (coords.getD i demoRow).alt - offset.2.2 - 40 ∧
    ((prepareActualCoordinates offset coords).getD i demoRow).heading
        = (coords.getD i demoRow).heading := by
  have h1 : (prepareActualCoordinates offset coords).get? i
      = (coords.get? i).map (fun c => (c.translate offset).translate (0, 0, 40)) := by
    rw [prepareActualCoordinates, List.get?_map]
  cases hma : coords.get? i with
  | none => exact absurd (List.get?_eq_none.mp hma) (by omega)
  | some a =>
    rw [hma] at h1
    simp only [List.getD_eq_get?, h1, hma, Option.map_some, Option.getD_some]
    simp [SbetRow.translate]

/-- Witness for C6 (amended) at a concrete offset and row list. -/
theorem actual_coords_translation_amended_witness :
    0 < ([demoRow] : List SbetRow).length ∧
    (((prepareActualCoordinates (1, 2, 3) [demoRow]).getD 0 demoRow).x
        = (([demoRow] : List SbetRow).getD 0 demoRow).x - ((1 : ℚ), (2 : ℚ), (3 : ℚ)).1 ∧
     ((prepareActualCoordinates (1, 2, 3) [demoRow]).getD 0 demoRow).y
        = (([demoRow] : List SbetRow).getD 0 demoRow).y - ((1 : ℚ), (2 : ℚ), (3 : ℚ)).2.1 ∧
     ((prepareActualCoordinates (1, 2, 3) [demoRow]).getD 0 demoRow).alt
        = (([demoRow] : List SbetRow).getD 0 demoRow).alt - ((1 : ℚ), (2 : ℚ), (3 : ℚ)).2.2 - 40 ∧
     ((prepareActualCoordinates (1, 2, 3) [demoRow]).getD 0 demoRow).heading
        = (([demoRow] : List SbetRow).getD 0 demoRow).heading) :=
  ⟨by decide, actual_coords_translation_amended (1, 2, 3) [demoRow] 0 (by decide)⟩

/-- C7: loading the reference cloud from the raw point-cloud file and then
re-loading it through the sidecar descriptor written at that moment yield
the same in-memory state — the same offset vector and the same point count —
and centering preserves the point count of the raw file
(absoluteNavigator.py lines 22-57). -/
theorem reference_cloud_load_equiv (points : List Vec3) (h : points ≠ []) :
    (load_point_cloud_sidecar (writeSidecar (load_point_cloud_raw points))).full_point_cloud_offset
        = (load_point_cloud_raw points).full_point_cloud_offset ∧
    (load_point_cloud_sidecar (writeSidecar (load_point_cloud_raw points))).full_cloud.length
        = (load_point_cloud_raw points).full_cloud.length ∧
    (load_point_cloud_raw points).full_cloud.length = points.length := by
  refine ⟨rfl, rfl, ?_⟩
  simp [load_point_cloud_raw]

/-- Witness for C7 at a concrete two-point raw cloud. -/
theorem reference_cloud_load_equiv_witness :
    ([(0, 0, 0), (2, 4, 6)] : List Vec3) ≠ [] ∧
    ((load_point_cloud_sidecar (writeSidecar (load_point_cloud_raw
          [(0, 0, 0), (2, 4, 6)]))).full_point_cloud_offset
        = (load_point_cloud_raw [(0, 0, 0), (2, 4, 6)]).full_point_cloud_offset ∧
     (load_point_cloud_sidecar (writeSidecar (load_point_cloud_raw
          [(0, 0, 0), (2, 4, 6)]))).full_cloud.length
        = (load_point_cloud_raw [(0, 0, 0), (2, 4, 6)]).full_cloud.length ∧
     (load_point_cloud_raw [(0, 0, 0), (2, 4, 6)]).full_cloud.length
        = ([(0, 0, 0), (2, 4, 6)] : List Vec3).length) :=
  ⟨by decide, reference_cloud_load_equiv [(0, 0, 0), (2, 4, 6)] (by decide)⟩

/-- C8 fails on the code: for every positive frame limit, an absolute-mode
run never reaches the final `ensure_merged_frame_is_downsampled` call of
absoluteNavigator.py lines 153-154 — the first loop iteration raises the
`NameError` from the leftover debugging line inside `merge_next_frame`
(line 215), so no compacted model is ever handed to the observers. -/
theorem final_downsample_unreachable (E : Externals) (t : AbsState) (n : ℕ) :
    AbsoluteLidarNavigator.navigate_through_file E (n + 1) t
      = Except.error nameErrorMsg := by
  simp [AbsoluteLidarNavigator.navigate_through_file, navigate_through_file_loop,
    AbsoluteLidarNavigator.merge_next_frame]

/-- Behaviour of the fuelled serial-reader recursion, given enough fuel and
the reader invariant. -/
theorem serialNextGo_spec :
    ∀ (fuel : ℕ) (s : SerialState),
      s.readers.length - s.current_reader_index ≤ fuel →
      exhaustedBefore s →
      (((serialNextGo fuel s).1 = none ↔
          ∀ k, k < s.readers.length → s.readers.getD k [] = []) ∧
       (∀ f, (serialNextGo fuel s).1 = some f →
          ∃ j, s.current_reader_index ≤ j ∧ j < s.readers.length ∧
            (∀ k, k < j → s.readers.getD k [] = []) ∧
            s.readers.getD j [] ≠ [] ∧
            f = (s.readers.getD j []).headI ∧
            (serialNextGo fuel s).2.current_reader_index = j ∧
            (serialNextGo fuel s).2.readers
              = s.readers.set j (s.readers.getD j []).tail)) := by
  intro fuel
  induction fuel with
  | zero =>
    intro s hfu hInv
    have hge : s.readers.length ≤ s.current_reader_index := by omega
    constructor
    · constructor
      · intro _ k hk
        exact hInv k (lt_of_lt_of_le hk hge)
      · intro _
        rfl
    · intro f hf
      exact absurd hf (by simp [serialNextGo])
  | succ fuel ih =>
    intro s hfu hInv
    by_cases hge : s.readers.length ≤ s.current_reader_index
    · have hres : serialNextGo (Nat.succ fuel) s = (none, s) := by
        simp [serialNextGo, if_pos hge]
      rw [hres]
      constructor
      · constructor
        · intro _ k hk
          exact hInv k (lt_of_lt_of_le hk hge)
        · intro _
          rfl
      · intro f hf
        simp at hf
    · have hlt : s.current_reader_index < s.readers.length := by omega
      cases hc : s.readers.getD s.current_reader_index [] with
      | nil =>
        have hres : serialNextGo (Nat.succ fuel) s
            = serialNextGo fuel
                { s with current_reader_index := s.current_reader_index + 1 } := by
          simp only [serialNextGo]
          rw [if_neg hge, hc]
        rw [hres]
        have hInv2 : exhaustedBefore
            { s with current_reader_index := s.current_reader_index + 1 } := by
          intro k hk
          simp only at hk
          by_cases hk2 : k < s.current_reader_index
          · exact hInv k hk2
          · have hke : k = s.current_reader_index := by omega
            rw [hke]
            exact hc
        have hfu2 :
            ({ s with current_reader_index := s.current_reader_index + 1 }
              : SerialState).readers.length
              - ({ s with current_reader_index := s.current_reader_index + 1 }
                  : SerialState).current_reader_index ≤ fuel := by
          simp only
          omega
        obtain ⟨ihA, ihB⟩ := ih _ hfu2 hInv2
        constructor
        · exact ihA
        · intro f hf
          obtain ⟨j, hj1, hj2, hj3, hj4, hj5, hj6, hj7⟩ := ihB f hf
          exact ⟨j, Nat.le_of_succ_le hj1, hj2, hj3, hj4, hj5, hj6, hj7⟩
      | cons f0 rest =>
        have hres : serialNextGo (Nat.succ fuel) s
            = (some f0,
               { s with readers := s.readers.set s.current_reader_index rest }) := by
          simp only [serialNextGo]
          rw [if_neg hge, hc]
        rw [hres]
        constructor
        · constructor
          · intro hcontra
            exact absurd hcontra (by simp)
          · intro hall
            have h2 := hall s.current_reader_index hlt
            rw [hc] at h2
            exact absurd h2 (by simp)
        · intro f hf
          have hf0 : f0 = f := by simpa using hf
          refine ⟨s.current_reader_index, le_refl _, hlt, ?_, ?_, ?_, rfl, ?_⟩
          · intro k hk
            exact hInv k hk
          · rw [hc]
            simp
          · rw [hc, ← hf0]
            rfl
          · rw [hc, List.tail_cons]

/-- C10: under the reader invariant (every reader before the current index
already exhausted, true of every reachable state),
`SerialPcapReader.next_frame` returns `None` iff every underlying reader is
exhausted; otherwise it returns the next frame of the first not-yet-exhausted
reader in list order and leaves the current index exactly on that reader —
so the index advances past each exhausted reader exactly once and never
moves back to an earlier reader (serialPcapReader.py lines 23-28, 74-84). -/
theorem serial_next_frame_spec (s : SerialState) (hInv : exhaustedBefore s) :
    ((SerialPcapReader.next_frame s).1 = none ↔
        ∀ k, k < s.readers.length → s.readers.getD k [] = []) ∧
    (∀ f, (SerialPcapReader.next_frame s).1 = some f →
        ∃ j, s.current_reader_index ≤ j ∧ j < s.readers.length ∧
          (∀ k, k < j → s.readers.getD k [] = []) ∧
          s.readers.getD j [] ≠ [] ∧
          f = (s.readers.getD j []).headI ∧
          (SerialPcapReader.next_frame s).2.current_reader_index = j ∧
          (SerialPcapReader.next_frame s).2.readers
            = s.readers.set j (s.readers.getD j []).tail) :=
  serialNextGo_spec (s.readers.length - s.current_reader_index) s
    (le_refl _) hInv

/-- Witness for C10 at the concrete state `demoSerial`, whose invariant
holds trivially (the index is 0). -/
theorem serial_next_frame_spec_witness :
    ((SerialPcapReader.next_frame demoSerial).1 = none ↔
        ∀ k, k < demoSerial.readers.length → demoSerial.readers.getD k [] = []) ∧
    (∀ f, (SerialPcapReader.next_frame demoSerial).1 = some f →
        ∃ j, demoSerial.current_reader_index ≤ j ∧ j < demoSerial.readers.length ∧
          (∀ k, k < j → demoSerial.readers.getD k [] = []) ∧
          demoSerial.readers.getD j [] ≠ [] ∧
          f = (demoSerial.readers.getD j []).headI ∧
          (SerialPcapReader.next_frame demoSerial).2.current_reader_index = j ∧
          (SerialPcapReader.next_frame demoSerial).2.readers
            = demoSerial.readers.set j (demoSerial.readers.getD j []).tail) :=
  serial_next_frame_spec demoSerial
    (fun k hk => absurd hk (Nat.not_lt_zero k))
